import Mathlib

/-!
Verification development for the 4C SPH momentum formulation module
(two strategy variants, Monaghan and Adami, file
4C_particle_interaction_sph_momentum_formulation.cpp).

Doubles are modelled as rationals.  A C++ output pointer of type
double* (an accumulator or a written scalar) is modelled as an
Option carrying the contents the pointer refers to, with none for a
null pointer; each operation returns the new contents of its output
pointers.  The Monaghan shear_forces operation can raise a fatal
error (FOUR_C_THROW) and is therefore modelled in Except.
-/

/-- Three-component vector of doubles (modelled as rationals),
standing for the raw double[3] buffers of the source. -/
structure Vec3 where
  x : ℚ
  y : ℚ
  z : ℚ
deriving DecidableEq

/-- The zero vector, the initial value of local double[3] accumulators
such as A_ij_e_ij = \x7b0.0, 0.0, 0.0\x7d. -/
def vzero : Vec3 := ⟨0, 0, 0⟩

/-- Modelled from the spec: Utils::pow<2> from the missing header
4C_particle_interaction_utils.hpp squares its argument. -/
def pow2 (a : ℚ) : ℚ := a * a

/-- Modelled from the spec: Utils::vec_add_scale(r, fac, a) from the
missing header 4C_particle_interaction_utils.hpp adds fac * a
componentwise into r (fixed-size 3-component vector math). -/
def vec_add_scale (r : Vec3) (fac : ℚ) (a : Vec3) : Vec3 :=
  ⟨r.x + fac * a.x, r.y + fac * a.y, r.z + fac * a.z⟩

/-- Modelled from the spec: Utils::vec_sub(r, a) subtracts a
componentwise from r; combined with Utils::vec_set(r, b) (copying b
into r first), vec_sub (vec_set b) a models the idiom
vec_set(r, b); vec_sub(r, a). -/
def vec_sub (r a : Vec3) : Vec3 :=
  ⟨r.x - a.x, r.y - a.y, r.z - a.z⟩

/-- Modelled from the spec: Utils::vec_set(r, a) copies a into r;
functionally the result is a. -/
def vec_set (a : Vec3) : Vec3 := a

/-- Modelled from the spec: Utils::vec_dot(a, b) is the euclidean dot
product of two 3-component vectors. -/
def vec_dot (a b : Vec3) : ℚ :=
  a.x * b.x + a.y * b.y + a.z * b.z

/-- Componentwise sum, used only to state superposition properties. -/
def Vec3.add (a b : Vec3) : Vec3 :=
  ⟨a.x + b.x, a.y + b.y, a.z + b.z⟩

/-- Componentwise negation, used only to state action/reaction
properties. -/
def Vec3.neg (a : Vec3) : Vec3 :=
  ⟨-a.x, -a.y, -a.z⟩

/-- Scalar multiple of a vector, used only to state which vector an
operation adds into an accumulator. -/
def Vec3.smul (c : ℚ) (a : Vec3) : Vec3 :=
  ⟨c * a.x, c * a.y, c * a.z⟩

namespace Monaghan

/-- SPHMomentumFormulationMonaghan::specific_coefficient: writes
dWdrij * mass_j through speccoeff_ij and dWdrji * mass_i through
speccoeff_ji, each side guarded by its own null check. -/
def specific_coefficient (dens_i dens_j mass_i mass_j : ℚ)
    (dWdrij dWdrji : ℚ) (speccoeff_ij speccoeff_ji : Option ℚ) :
    Option ℚ × Option ℚ :=
  (speccoeff_ij.map (fun _ => dWdrij * mass_j),
   speccoeff_ji.map (fun _ => dWdrji * mass_i))

/-- SPHMomentumFormulationMonaghan::pressure_gradient: with
fac = press_i / dens_i^2 + press_j / dens_j^2, adds
-speccoeff_ij * fac * e_ij into acc_i and speccoeff_ji * fac * e_ij
into acc_j, each side guarded by its own null check. -/
def pressure_gradient (dens_i dens_j press_i press_j : ℚ)
    (speccoeff_ij speccoeff_ji : ℚ) (e_ij : Vec3)
    (acc_i acc_j : Option Vec3) : Option Vec3 × Option Vec3 :=
  let fac := press_i / pow2 dens_i + press_j / pow2 dens_j
  (acc_i.map (fun a => vec_add_scale a (-speccoeff_ij * fac) e_ij),
   acc_j.map (fun a => vec_add_scale a (speccoeff_ji * fac) e_ij))

/-- SPHMomentumFormulationMonaghan::shear_forces: computes a scaled
(shear) viscosity and a bulk viscosity (each zero unless both inputs
of its kind are positive), throws if the derived diffusion
coefficient 5 * scaled_viscosity - bulk_viscosity is negative, and
otherwise adds a diffusion term along vel_i - vel_j and a convection
term along e_ij into each non-null accumulator. -/
def shear_forces (dens_i dens_j : ℚ) (vel_i vel_j : Vec3)
    (kernelfac visc_i visc_j bulk_visc_i bulk_visc_j abs_rij : ℚ)
    (speccoeff_ij speccoeff_ji : ℚ) (e_ij : Vec3)
    (acc_i acc_j : Option Vec3) :
    Except String (Option Vec3 × Option Vec3) :=
  let scaled_viscosity : ℚ :=
    if visc_i > 0 ∧ visc_j > 0 then
      2 * visc_i * visc_j / (3 * (visc_i + visc_j))
    else 0
  let bulk_viscosity : ℚ :=
    if bulk_visc_i > 0 ∧ bulk_visc_j > 0 then
      2 * bulk_visc_i * bulk_visc_j / (bulk_visc_i + bulk_visc_j)
    else 0
  let convection_coeff := kernelfac * (bulk_viscosity + scaled_viscosity)
  let diffusion_coeff := 5 * scaled_viscosity - bulk_viscosity
  if diffusion_coeff < 0 then
    Except.error ("diffusion coefficient is negative!")
  else
    let vel_ij := vec_sub (vec_set vel_i) vel_j
    let inv_densi_densj_absdist := 1 / (dens_i * dens_j * abs_rij)
    let fac_diff := diffusion_coeff * inv_densi_densj_absdist
    let acc_i1 := acc_i.map (fun a => vec_add_scale a (speccoeff_ij * fac_diff) vel_ij)
    let acc_j1 := acc_j.map (fun a => vec_add_scale a (-speccoeff_ji * fac_diff) vel_ij)
    let fac_conv := convection_coeff * vec_dot vel_ij e_ij * inv_densi_densj_absdist
    Except.ok
      (acc_i1.map (fun a => vec_add_scale a (speccoeff_ij * fac_conv) e_ij),
       acc_j1.map (fun a => vec_add_scale a (-speccoeff_ji * fac_conv) e_ij))

/-- SPHMomentumFormulationMonaghan::standard_background_pressure: with
fac = 1 / dens_i^2 + 1 / dens_j^2, adds
-speccoeff_ij * bg_press_i * fac * e_ij into mod_acc_i and
speccoeff_ji * bg_press_j * fac * e_ij into mod_acc_j. -/
def standard_background_pressure (dens_i dens_j : ℚ)
    (bg_press_i bg_press_j : ℚ) (speccoeff_ij speccoeff_ji : ℚ)
    (e_ij : Vec3) (mod_acc_i mod_acc_j : Option Vec3) :
    Option Vec3 × Option Vec3 :=
  let fac := 1 / pow2 dens_i + 1 / pow2 dens_j
  (mod_acc_i.map (fun a => vec_add_scale a (-speccoeff_ij * bg_press_i * fac) e_ij),
   mod_acc_j.map (fun a => vec_add_scale a (speccoeff_ji * bg_press_j * fac) e_ij))

/-- SPHMomentumFormulationMonaghan::generalized_background_pressure:
adds -mod_bg_press_i * (mass_j / dens_i^2) * mod_dWdrij * e_ij into
mod_acc_i and mod_bg_press_j * (mass_i / dens_j^2) * mod_dWdrji * e_ij
into mod_acc_j. -/
def generalized_background_pressure (dens_i dens_j mass_i mass_j : ℚ)
    (mod_bg_press_i mod_bg_press_j mod_dWdrij mod_dWdrji : ℚ)
    (e_ij : Vec3) (mod_acc_i mod_acc_j : Option Vec3) :
    Option Vec3 × Option Vec3 :=
  (mod_acc_i.map (fun a =>
      vec_add_scale a (-mod_bg_press_i * (mass_j / pow2 dens_i) * mod_dWdrij) e_ij),
   mod_acc_j.map (fun a =>
      vec_add_scale a (mod_bg_press_j * (mass_i / pow2 dens_j) * mod_dWdrji) e_ij))

/-- SPHMomentumFormulationMonaghan::modified_velocity_contribution:
builds A_ij_e_ij from the sides whose modified velocity is non-null
(each side contributing (dot (mod_vel - vel) e_ij / dens) * vel), then
adds speccoeff_ij * A_ij_e_ij into acc_i and
-speccoeff_ji * A_ij_e_ij into acc_j. -/
def modified_velocity_contribution (dens_i dens_j : ℚ)
    (vel_i vel_j : Vec3) (mod_vel_i mod_vel_j : Option Vec3)
    (speccoeff_ij speccoeff_ji : ℚ) (e_ij : Vec3)
    (acc_i acc_j : Option Vec3) : Option Vec3 × Option Vec3 :=
  let A0 := vzero
  let A1 := match mod_vel_i with
    | some mv =>
        vec_add_scale A0
          (vec_dot (vec_sub (vec_set mv) vel_i) e_ij / dens_i) vel_i
    | none => A0
  let A2 := match mod_vel_j with
    | some mv =>
        vec_add_scale A1
          (vec_dot (vec_sub (vec_set mv) vel_j) e_ij / dens_j) vel_j
    | none => A1
  (acc_i.map (fun a => vec_add_scale a speccoeff_ij A2),
   acc_j.map (fun a => vec_add_scale a (-speccoeff_ji) A2))

end Monaghan

namespace Adami

/-- SPHMomentumFormulationAdami::specific_coefficient: with
fac = (mass_i / dens_i)^2 + (mass_j / dens_j)^2, writes
fac * (dWdrij / mass_i) through speccoeff_ij and
fac * (dWdrji / mass_j) through speccoeff_ji. -/
def specific_coefficient (dens_i dens_j mass_i mass_j : ℚ)
    (dWdrij dWdrji : ℚ) (speccoeff_ij speccoeff_ji : Option ℚ) :
    Option ℚ × Option ℚ :=
  let fac := pow2 (mass_i / dens_i) + pow2 (mass_j / dens_j)
  (speccoeff_ij.map (fun _ => fac * (dWdrij / mass_i)),
   speccoeff_ji.map (fun _ => fac * (dWdrji / mass_j)))

/-- SPHMomentumFormulationAdami::pressure_gradient: with
fac = (dens_i * press_j + dens_j * press_i) / (dens_i + dens_j), adds
-speccoeff_ij * fac * e_ij into acc_i and speccoeff_ji * fac * e_ij
into acc_j. -/
def pressure_gradient (dens_i dens_j press_i press_j : ℚ)
    (speccoeff_ij speccoeff_ji : ℚ) (e_ij : Vec3)
    (acc_i acc_j : Option Vec3) : Option Vec3 × Option Vec3 :=
  let fac := (dens_i * press_j + dens_j * press_i) / (dens_i + dens_j)
  (acc_i.map (fun a => vec_add_scale a (-speccoeff_ij * fac) e_ij),
   acc_j.map (fun a => vec_add_scale a (speccoeff_ji * fac) e_ij))

/-- SPHMomentumFormulationAdami::shear_forces: returns immediately
(accumulators untouched) unless both viscosities are positive;
otherwise adds the harmonic-mean viscosity term along vel_i - vel_j
into each non-null accumulator. -/
def shear_forces (dens_i dens_j : ℚ) (vel_i vel_j : Vec3)
    (kernelfac visc_i visc_j bulk_visc_i bulk_visc_j abs_rij : ℚ)
    (speccoeff_ij speccoeff_ji : ℚ) (e_ij : Vec3)
    (acc_i acc_j : Option Vec3) : Option Vec3 × Option Vec3 :=
  if visc_i > 0 ∧ visc_j > 0 then
    let viscosity := 2 * visc_i * visc_j / (visc_i + visc_j)
    let vel_ij := vec_sub (vec_set vel_i) vel_j
    let fac := viscosity / abs_rij
    (acc_i.map (fun a => vec_add_scale a (speccoeff_ij * fac) vel_ij),
     acc_j.map (fun a => vec_add_scale a (-speccoeff_ji * fac) vel_ij))
  else
    (acc_i, acc_j)

/-- SPHMomentumFormulationAdami::standard_background_pressure: adds
-speccoeff_ij * bg_press_i * e_ij into mod_acc_i and
speccoeff_ji * bg_press_j * e_ij into mod_acc_j. -/
def standard_background_pressure (dens_i dens_j : ℚ)
    (bg_press_i bg_press_j : ℚ) (speccoeff_ij speccoeff_ji : ℚ)
    (e_ij : Vec3) (mod_acc_i mod_acc_j : Option Vec3) :
    Option Vec3 × Option Vec3 :=
  (mod_acc_i.map (fun a => vec_add_scale a (-speccoeff_ij * bg_press_i) e_ij),
   mod_acc_j.map (fun a => vec_add_scale a (speccoeff_ji * bg_press_j) e_ij))

/-- SPHMomentumFormulationAdami::generalized_background_pressure: adds
-(mod_bg_press_i * mass_i * mod_dWdrij) / dens_i^2 * e_ij into
mod_acc_i and (mod_bg_press_j * mass_j * mod_dWdrji) / dens_j^2 * e_ij
into mod_acc_j. -/
def generalized_background_pressure (dens_i dens_j mass_i mass_j : ℚ)
    (mod_bg_press_i mod_bg_press_j mod_dWdrij mod_dWdrji : ℚ)
    (e_ij : Vec3) (mod_acc_i mod_acc_j : Option Vec3) :
    Option Vec3 × Option Vec3 :=
  (mod_acc_i.map (fun a =>
      vec_add_scale a (-(mod_bg_press_i * mass_i * mod_dWdrij) / pow2 dens_i) e_ij),
   mod_acc_j.map (fun a =>
      vec_add_scale a ((mod_bg_press_j * mass_j * mod_dWdrji) / pow2 dens_j) e_ij))

/-- SPHMomentumFormulationAdami::modified_velocity_contribution: like
the Monaghan variant but each non-null side contributes
0.5 * dens * dot (mod_vel - vel) e_ij * vel to A_ij_e_ij. -/
def modified_velocity_contribution (dens_i dens_j : ℚ)
    (vel_i vel_j : Vec3) (mod_vel_i mod_vel_j : Option Vec3)
    (speccoeff_ij speccoeff_ji : ℚ) (e_ij : Vec3)
    (acc_i acc_j : Option Vec3) : Option Vec3 × Option Vec3 :=
  let A0 := vzero
  let A1 := match mod_vel_i with
    | some mv =>
        vec_add_scale A0
          (1 / 2 * dens_i * vec_dot (vec_sub (vec_set mv) vel_i) e_ij) vel_i
    | none => A0
  let A2 := match mod_vel_j with
    | some mv =>
        vec_add_scale A1
          (1 / 2 * dens_j * vec_dot (vec_sub (vec_set mv) vel_j) e_ij) vel_j
    | none => A1
  (acc_i.map (fun a => vec_add_scale a speccoeff_ij A2),
   acc_j.map (fun a => vec_add_scale a (-speccoeff_ji) A2))

end Adami

/-! ## Helper lemmas -/

lemma vec_add_scale_zero_fac (a v : Vec3) : vec_add_scale a 0 v = a := by
  simp [vec_add_scale]

lemma vec_add_scale_vzero (a : Vec3) (c : ℚ) : vec_add_scale a c vzero = a := by
  simp [vec_add_scale, vzero]

lemma vec_sub_self (v : Vec3) : vec_sub (vec_set v) v = vzero := by
  simp [vec_sub, vec_set, vzero]

lemma vec_dot_vzero_left (e : Vec3) : vec_dot vzero e = 0 := by
  simp [vec_dot, vzero]

/-! ## C8 -/

/-- C8: the Adami specific_coefficient at dens_i = dens_j = 2,
mass_i = mass_j = 1, dWdrij = dWdrji = 1 with both output pointers
non-null writes 1/2 through both pointers, whatever they held. -/
theorem c8_adami_specific_coefficient_scenario (p q : ℚ) :
    Adami.specific_coefficient 2 2 1 1 1 1 (some p) (some q)
      = (some (1 / 2), some (1 / 2)) := by
  simp [Adami.specific_coefficient, pow2]
  norm_num

/-! ## C2 -/

/-- C2: for the Monaghan variant, with all four viscosities positive
and 5 * scaled_viscosity < bulk_viscosity (with the scaled and bulk
viscosities as computed by the code), shear_forces fails with the
fatal negative-diffusion-coefficient error, returning no updated
accumulators (so nothing was added when the error is raised). -/
theorem c2_monaghan_shear_negative_diffusion_error
    (dens_i dens_j : ℚ) (vel_i vel_j : Vec3)
    (kernelfac visc_i visc_j bulk_visc_i bulk_visc_j abs_rij : ℚ)
    (speccoeff_ij speccoeff_ji : ℚ) (e_ij : Vec3)
    (acc_i acc_j : Option Vec3)
    (hvi : 0 < visc_i) (hvj : 0 < visc_j)
    (hbi : 0 < bulk_visc_i) (hbj : 0 < bulk_visc_j)
    (hlt : 5 * (2 * visc_i * visc_j / (3 * (visc_i + visc_j)))
        < 2 * bulk_visc_i * bulk_visc_j / (bulk_visc_i + bulk_visc_j)) :
    Monaghan.shear_forces dens_i dens_j vel_i vel_j kernelfac visc_i visc_j
        bulk_visc_i bulk_visc_j abs_rij speccoeff_ij speccoeff_ji e_ij
        acc_i acc_j
      = Except.error ("diffusion coefficient is negative!") := by
  simp only [Monaghan.shear_forces]
  have hv : visc_i > 0 ∧ visc_j > 0 := ⟨hvi, hvj⟩
  have hbk : bulk_visc_i > 0 ∧ bulk_visc_j > 0 := ⟨hbi, hbj⟩
  rw [if_pos hv, if_pos hbk,
    if_pos (show 5 * (2 * visc_i * visc_j / (3 * (visc_i + visc_j)))
        - 2 * bulk_visc_i * bulk_visc_j / (bulk_visc_i + bulk_visc_j) < 0
      by linarith)]

/-- Witness for C2 at a concrete input: visc_i = visc_j = 1 gives
scaled_viscosity = 1/3, bulk_visc_i = bulk_visc_j = 2 gives
bulk_viscosity = 2, and 5/3 < 2. -/
theorem c2_witness :
    Monaghan.shear_forces 1 1 ⟨1, 0, 0⟩ ⟨0, 0, 0⟩ 1 1 1 2 2 1 1 1 ⟨1, 0, 0⟩
        (some vzero) (some vzero)
      = Except.error ("diffusion coefficient is negative!") :=
  c2_monaghan_shear_negative_diffusion_error 1 1 ⟨1, 0, 0⟩ ⟨0, 0, 0⟩ 1 1 1 2 2
    1 1 1 ⟨1, 0, 0⟩ (some vzero) (some vzero)
    (by norm_num) (by norm_num) (by norm_num) (by norm_num) (by norm_num)

/-! ## C9 -/

/-- C9: for the Monaghan variant, whenever bulk_visc_i <= 0 or
bulk_visc_j <= 0, shear_forces never raises the fatal
negative-diffusion-coefficient error: the computed bulk viscosity is
zero, the diffusion coefficient is nonnegative, and the call returns
normally. -/
theorem c9_monaghan_shear_no_error_nonpositive_bulk
    (dens_i dens_j : ℚ) (vel_i vel_j : Vec3)
    (kernelfac visc_i visc_j bulk_visc_i bulk_visc_j abs_rij : ℚ)
    (speccoeff_ij speccoeff_ji : ℚ) (e_ij : Vec3)
    (acc_i acc_j : Option Vec3)
    (hb : bulk_visc_i ≤ 0 ∨ bulk_visc_j ≤ 0) :
    ∃ p, Monaghan.shear_forces dens_i dens_j vel_i vel_j kernelfac visc_i
        visc_j bulk_visc_i bulk_visc_j abs_rij speccoeff_ij speccoeff_ji e_ij
        acc_i acc_j = Except.ok p := by
  have hbulk : ¬(bulk_visc_i > 0 ∧ bulk_visc_j > 0) := by
    rcases hb with h | h <;> intro hc <;>
      [linarith [hc.1]; linarith [hc.2]]
  simp only [Monaghan.shear_forces]
  rw [if_neg hbulk]
  have hscaled :
      (0 : ℚ) ≤ (if visc_i > 0 ∧ visc_j > 0 then
        2 * visc_i * visc_j / (3 * (visc_i + visc_j)) else 0) := by
    split
    · next hv =>
        have h1 : (0 : ℚ) < 2 * visc_i * visc_j := by nlinarith [hv.1, hv.2]
        have h2 : (0 : ℚ) < 3 * (visc_i + visc_j) := by linarith [hv.1, hv.2]
        exact le_of_lt (div_pos h1 h2)
    · exact le_refl 0
  rw [if_neg (by simp only [sub_zero]; linarith)]
  exact ⟨_, rfl⟩

/-- Witness for C9 at a concrete input with a nonpositive bulk
viscosity on the i side. -/
theorem c9_witness :
    ∃ p, Monaghan.shear_forces 1 1 ⟨1, 0, 0⟩ ⟨0, 0, 0⟩ 1 1 1 (-1) 2 1 1 1
        ⟨1, 0, 0⟩ (some vzero) (some vzero) = Except.ok p :=
  c9_monaghan_shear_no_error_nonpositive_bulk 1 1 ⟨1, 0, 0⟩ ⟨0, 0, 0⟩ 1 1 1
    (-1) 2 1 1 1 ⟨1, 0, 0⟩ (some vzero) (some vzero)
    (Or.inl (by norm_num))

/-! ## C1 -/

/-- C1 counterexample: with visc_i = visc_j = 0 but positive bulk
viscosities (bulk_visc_i = bulk_visc_j = 1), the Monaghan
shear_forces raises the fatal negative-diffusion-coefficient error
instead of leaving the accumulators unchanged, refuting the claim for
such bulk viscosities. -/
theorem c1_counterexample :
    Monaghan.shear_forces 1 1 ⟨1, 0, 0⟩ ⟨0, 0, 0⟩ 1 0 0 1 1 1 1 1 ⟨1, 0, 0⟩
        (some vzero) (some vzero)
      = Except.error ("diffusion coefficient is negative!") := by
  simp only [Monaghan.shear_forces]
  norm_num

/-- C1 amended: with visc_i = visc_j = 0, the Monaghan shear_forces
leaves the accumulators unchanged and raises no error provided the
computed bulk viscosity also vanishes (bulk_visc_i <= 0 or
bulk_visc_j <= 0); and the Adami shear_forces leaves the accumulators
unchanged whenever either viscosity is nonpositive, for all remaining
inputs. -/
theorem c1_shear_zero_viscosity_no_contribution :
    (∀ (dens_i dens_j : ℚ) (vel_i vel_j : Vec3)
        (kernelfac bulk_visc_i bulk_visc_j abs_rij : ℚ)
        (speccoeff_ij speccoeff_ji : ℚ) (e_ij : Vec3)
        (acc_i acc_j : Option Vec3),
      bulk_visc_i ≤ 0 ∨ bulk_visc_j ≤ 0 →
      Monaghan.shear_forces dens_i dens_j vel_i vel_j kernelfac 0 0
          bulk_visc_i bulk_visc_j abs_rij speccoeff_ij speccoeff_ji e_ij
          acc_i acc_j = Except.ok (acc_i, acc_j)) ∧
    (∀ (dens_i dens_j : ℚ) (vel_i vel_j : Vec3)
        (kernelfac visc_i visc_j bulk_visc_i bulk_visc_j abs_rij : ℚ)
        (speccoeff_ij speccoeff_ji : ℚ) (e_ij : Vec3)
        (acc_i acc_j : Option Vec3),
      visc_i ≤ 0 ∨ visc_j ≤ 0 →
      Adami.shear_forces dens_i dens_j vel_i vel_j kernelfac visc_i visc_j
          bulk_visc_i bulk_visc_j abs_rij speccoeff_ij speccoeff_ji e_ij
          acc_i acc_j = (acc_i, acc_j)) := by
  constructor
  · intro dens_i dens_j vel_i vel_j kernelfac bulk_visc_i bulk_visc_j abs_rij
      speccoeff_ij speccoeff_ji e_ij acc_i acc_j hb
    have hbulk : ¬(bulk_visc_i > 0 ∧ bulk_visc_j > 0) := by
      rcases hb with h | h <;> intro hc <;>
        [linarith [hc.1]; linarith [hc.2]]
    simp [Monaghan.shear_forces, hbulk, vec_add_scale_zero_fac]
  · intro dens_i dens_j vel_i vel_j kernelfac visc_i visc_j bulk_visc_i
      bulk_visc_j abs_rij speccoeff_ij speccoeff_ji e_ij acc_i acc_j hv
    have hvisc : ¬(visc_i > 0 ∧ visc_j > 0) := by
      rcases hv with h | h <;> intro hc <;>
        [linarith [hc.1]; linarith [hc.2]]
    simp [Adami.shear_forces, hvisc]

/-- Witness for C1 amended at concrete inputs: the Monaghan part with
zero shear viscosities and a nonpositive bulk viscosity on the j
side, the Adami part with a negative viscosity on the i side. -/
theorem c1_witness :
    Monaghan.shear_forces 1 1 ⟨1, 0, 0⟩ ⟨0, 0, 0⟩ 1 0 0 1 0 1 1 1 ⟨1, 0, 0⟩
        (some vzero) none = Except.ok (some vzero, none) ∧
    Adami.shear_forces 1 1 ⟨1, 0, 0⟩ ⟨0, 0, 0⟩ 1 (-1) 1 1 1 1 1 1 ⟨1, 0, 0⟩
        (some vzero) (some vzero) = (some vzero, some vzero) :=
  ⟨c1_shear_zero_viscosity_no_contribution.1 1 1 ⟨1, 0, 0⟩ ⟨0, 0, 0⟩ 1 1 0 1
      1 1 ⟨1, 0, 0⟩ (some vzero) none (Or.inr (by norm_num)),
   c1_shear_zero_viscosity_no_contribution.2 1 1 ⟨1, 0, 0⟩ ⟨0, 0, 0⟩ 1 (-1) 1
      1 1 1 1 1 ⟨1, 0, 0⟩ (some vzero) (some vzero) (Or.inl (by norm_num))⟩

/-! ## C5 -/

/-- C5 counterexample: for the Monaghan variant with mod_vel_i equal
to vel_i but a non-null non-trivial mod_vel_j, the call adds a
nonzero vector to acc_i (the j side feeds the shared A_ij_e_ij
accumulator which is then added into acc_i), refuting the claim that
such a call contributes exactly zero to acc_i. -/
theorem c5_counterexample :
    (Monaghan.modified_velocity_contribution 1 1 ⟨1, 0, 0⟩ ⟨0, 1, 0⟩
        (some ⟨1, 0, 0⟩) (some ⟨1, 1, 0⟩) 1 1 ⟨1, 0, 0⟩ (some vzero) none).1
      = some ⟨0, 1, 0⟩ ∧
    some (⟨0, 1, 0⟩ : Vec3) ≠ some vzero := by
  constructor
  · norm_num [Monaghan.modified_velocity_contribution, vec_add_scale, vec_sub,
      vec_set, vec_dot, vzero, Vec3.mk.injEq]
  · norm_num [vzero, Vec3.mk.injEq]

/-- C5 amended: for both variants, whenever mod_vel_i is non-null and
equal to vel_i AND the j side contributes nothing (mod_vel_j null or
equal to vel_j), modified_velocity_contribution leaves acc_i
unchanged. -/
theorem c5_modified_velocity_no_modification_zero
    (dens_i dens_j : ℚ) (vel_i vel_j : Vec3) (mod_vel_j : Option Vec3)
    (speccoeff_ij speccoeff_ji : ℚ) (e_ij : Vec3)
    (acc_i acc_j : Option Vec3)
    (hj : mod_vel_j = none ∨ mod_vel_j = some vel_j) :
    (Monaghan.modified_velocity_contribution dens_i dens_j vel_i vel_j
        (some vel_i) mod_vel_j speccoeff_ij speccoeff_ji e_ij
        acc_i acc_j).1 = acc_i ∧
    (Adami.modified_velocity_contribution dens_i dens_j vel_i vel_j
        (some vel_i) mod_vel_j speccoeff_ij speccoeff_ji e_ij
        acc_i acc_j).1 = acc_i := by
  rcases hj with h | h <;> subst h <;>
    constructor <;>
    simp [Monaghan.modified_velocity_contribution,
      Adami.modified_velocity_contribution, vec_sub_self, vec_dot_vzero_left,
      vec_add_scale_zero_fac, vec_add_scale_vzero]

/-- Witness for C5 amended at a concrete input with a null
mod_vel_j. -/
theorem c5_witness :
    (Monaghan.modified_velocity_contribution 1 1 ⟨1, 0, 0⟩ ⟨0, 1, 0⟩
        (some ⟨1, 0, 0⟩) none 1 1 ⟨1, 0, 0⟩ (some vzero) none).1
      = some vzero ∧
    (Adami.modified_velocity_contribution 1 1 ⟨1, 0, 0⟩ ⟨0, 1, 0⟩
        (some ⟨1, 0, 0⟩) none 1 1 ⟨1, 0, 0⟩ (some vzero) none).1
      = some vzero :=
  c5_modified_velocity_no_modification_zero 1 1 ⟨1, 0, 0⟩ ⟨0, 1, 0⟩ none 1 1
    ⟨1, 0, 0⟩ (some vzero) none (Or.inl rfl)

/-! ## C3 -/

/-- C3: for both variants with non-null accumulators,
pressure_gradient adds -speccoeff_ij * fac * e_ij into acc_i and
+speccoeff_ji * fac * e_ij into acc_j with the same scalar fac on
both sides (the formulation-specific magnitude), and when
speccoeff_ij = speccoeff_ji the contribution to acc_i is the exact
negation of the contribution to acc_j. -/
theorem c3_pressure_gradient_action_reaction
    (dens_i dens_j press_i press_j speccoeff_ij speccoeff_ji : ℚ)
    (e_ij a_i a_j : Vec3) :
    Monaghan.pressure_gradient dens_i dens_j press_i press_j speccoeff_ij
        speccoeff_ji e_ij (some a_i) (some a_j)
      = (some (a_i.add (Vec3.smul (-speccoeff_ij *
            (press_i / pow2 dens_i + press_j / pow2 dens_j)) e_ij)),
         some (a_j.add (Vec3.smul (speccoeff_ji *
            (press_i / pow2 dens_i + press_j / pow2 dens_j)) e_ij))) ∧
    Adami.pressure_gradient dens_i dens_j press_i press_j speccoeff_ij
        speccoeff_ji e_ij (some a_i) (some a_j)
      = (some (a_i.add (Vec3.smul (-speccoeff_ij *
            ((dens_i * press_j + dens_j * press_i) / (dens_i + dens_j))) e_ij)),
         some (a_j.add (Vec3.smul (speccoeff_ji *
            ((dens_i * press_j + dens_j * press_i) / (dens_i + dens_j))) e_ij))) ∧
    (speccoeff_ij = speccoeff_ji →
      (Vec3.smul (-speccoeff_ij *
           (press_i / pow2 dens_i + press_j / pow2 dens_j)) e_ij
         = Vec3.neg (Vec3.smul (speccoeff_ji *
             (press_i / pow2 dens_i + press_j / pow2 dens_j)) e_ij) ∧
       Vec3.smul (-speccoeff_ij *
           ((dens_i * press_j + dens_j * press_i) / (dens_i + dens_j))) e_ij
         = Vec3.neg (Vec3.smul (speccoeff_ji *
             ((dens_i * press_j + dens_j * press_i) / (dens_i + dens_j))) e_ij))) := by
  refine ⟨rfl, rfl, fun h => ?_⟩
  subst h
  constructor <;>
    simp only [Vec3.smul, Vec3.neg, Vec3.mk.injEq] <;>
    refine ⟨by ring, by ring, by ring⟩

/-- Witness for C3 at a concrete input, with equal specific
coefficients discharging the hypothesis of the negation part. -/
theorem c3_witness :
    Monaghan.pressure_gradient 1 1 2 3 4 4 ⟨1, 0, 0⟩ (some vzero) (some vzero)
      = (some (vzero.add (Vec3.smul (-4 * (2 / pow2 1 + 3 / pow2 1)) ⟨1, 0, 0⟩)),
         some (vzero.add (Vec3.smul (4 * (2 / pow2 1 + 3 / pow2 1)) ⟨1, 0, 0⟩))) ∧
    Vec3.smul (-4 * (2 / pow2 1 + 3 / pow2 1)) ⟨1, 0, 0⟩
      = Vec3.neg (Vec3.smul (4 * (2 / pow2 1 + 3 / pow2 1)) ⟨1, 0, 0⟩) :=
  ⟨(c3_pressure_gradient_action_reaction 1 1 2 3 4 4 ⟨1, 0, 0⟩ vzero vzero).1,
   ((c3_pressure_gradient_action_reaction 1 1 2 3 4 4 ⟨1, 0, 0⟩ vzero
      vzero).2.2 rfl).1⟩

/-! ## C7 -/

/-- C7: for positive densities, the scalar magnitude used by the
Adami pressure_gradient equals the inverse-density-weighted average
of the two pressures, (press_i/dens_i + press_j/dens_j) divided by
(1/dens_i + 1/dens_j), which equals
(dens_i * press_j + dens_j * press_i) / (dens_i + dens_j); the
Monaghan variant instead uses press_i/dens_i^2 + press_j/dens_j^2. -/
theorem c7_pressure_gradient_magnitude
    (dens_i dens_j press_i press_j speccoeff_ij speccoeff_ji : ℚ)
    (e_ij a_i a_j : Vec3) (hdi : 0 < dens_i) (hdj : 0 < dens_j) :
    Adami.pressure_gradient dens_i dens_j press_i press_j speccoeff_ij
        speccoeff_ji e_ij (some a_i) (some a_j)
      = (some (vec_add_scale a_i (-speccoeff_ij *
            ((press_i / dens_i + press_j / dens_j)
              / (1 / dens_i + 1 / dens_j))) e_ij),
         some (vec_add_scale a_j (speccoeff_ji *
            ((press_i / dens_i + press_j / dens_j)
              / (1 / dens_i + 1 / dens_j))) e_ij)) ∧
    (press_i / dens_i + press_j / dens_j) / (1 / dens_i + 1 / dens_j)
      = (dens_i * press_j + dens_j * press_i) / (dens_i + dens_j) ∧
    Monaghan.pressure_gradient dens_i dens_j press_i press_j speccoeff_ij
        speccoeff_ji e_ij (some a_i) (some a_j)
      = (some (vec_add_scale a_i (-speccoeff_ij *
            (press_i / dens_i ^ 2 + press_j / dens_j ^ 2)) e_ij),
         some (vec_add_scale a_j (speccoeff_ji *
            (press_i / dens_i ^ 2 + press_j / dens_j ^ 2)) e_ij)) := by
  have h1 : dens_i ≠ 0 := ne_of_gt hdi
  have h2 : dens_j ≠ 0 := ne_of_gt hdj
  have hkey : (press_i / dens_i + press_j / dens_j)
      / (1 / dens_i + 1 / dens_j)
      = (dens_i * press_j + dens_j * press_i) / (dens_i + dens_j) := by
    have h3 : dens_i + dens_j ≠ 0 := by positivity
    have h4 : 1 / dens_i + 1 / dens_j ≠ 0 := by positivity
    field_simp
    ring
  refine ⟨?_, hkey, ?_⟩
  · rw [hkey]
    rfl
  · simp only [Monaghan.pressure_gradient, pow2]
    rw [pow_two dens_i, pow_two dens_j]
    rfl

/-- Witness for C7 at a concrete input with positive densities. -/
theorem c7_witness :
    Adami.pressure_gradient 1 2 3 4 5 6 ⟨1, 0, 0⟩ (some vzero) (some vzero)
      = (some (vec_add_scale vzero (-5 *
            ((3 / 1 + 4 / 2) / (1 / 1 + 1 / 2))) ⟨1, 0, 0⟩),
         some (vec_add_scale vzero (6 *
            ((3 / 1 + 4 / 2) / (1 / 1 + 1 / 2))) ⟨1, 0, 0⟩)) ∧
    ((3 : ℚ) / 1 + 4 / 2) / (1 / 1 + 1 / 2) = (1 * 4 + 2 * 3) / (1 + 2) :=
  ⟨(c7_pressure_gradient_magnitude 1 2 3 4 5 6 ⟨1, 0, 0⟩ vzero vzero
      (by norm_num) (by norm_num)).1,
   (c7_pressure_gradient_magnitude 1 2 3 4 5 6 ⟨1, 0, 0⟩ vzero vzero
      (by norm_num) (by norm_num)).2.1⟩

/-! ## C10 -/

/-- C10: for both variants, specific_coefficient guards each scalar
output independently: a null speccoeff_ij is not written and a
non-null speccoeff_ji still receives exactly its usual value, and
symmetrically; the usual values are the ones the source computes. -/
theorem c10_specific_coefficient_null_guard
    (dens_i dens_j mass_i mass_j dWdrij dWdrji x y : ℚ)
    (si sj : Option ℚ) :
    (Monaghan.specific_coefficient dens_i dens_j mass_i mass_j dWdrij dWdrji
        none sj
      = (none, (Monaghan.specific_coefficient dens_i dens_j mass_i mass_j
          dWdrij dWdrji (some x) sj).2)) ∧
    (Monaghan.specific_coefficient dens_i dens_j mass_i mass_j dWdrij dWdrji
        si none
      = ((Monaghan.specific_coefficient dens_i dens_j mass_i mass_j dWdrij
          dWdrji si (some y)).1, none)) ∧
    ((Monaghan.specific_coefficient dens_i dens_j mass_i mass_j dWdrij dWdrji
        (some x) sj).1 = some (dWdrij * mass_j)) ∧
    ((Monaghan.specific_coefficient dens_i dens_j mass_i mass_j dWdrij dWdrji
        si (some y)).2 = some (dWdrji * mass_i)) ∧
    (Adami.specific_coefficient dens_i dens_j mass_i mass_j dWdrij dWdrji
        none sj
      = (none, (Adami.specific_coefficient dens_i dens_j mass_i mass_j
          dWdrij dWdrji (some x) sj).2)) ∧
    (Adami.specific_coefficient dens_i dens_j mass_i mass_j dWdrij dWdrji
        si none
      = ((Adami.specific_coefficient dens_i dens_j mass_i mass_j dWdrij
          dWdrji si (some y)).1, none)) ∧
    ((Adami.specific_coefficient dens_i dens_j mass_i mass_j dWdrij dWdrji
        (some x) sj).1
      = some ((pow2 (mass_i / dens_i) + pow2 (mass_j / dens_j))
          * (dWdrij / mass_i))) ∧
    ((Adami.specific_coefficient dens_i dens_j mass_i mass_j dWdrij dWdrji
        si (some y)).2
      = some ((pow2 (mass_i / dens_i) + pow2 (mass_j / dens_j))
          * (dWdrji / mass_j))) :=
  ⟨rfl, rfl, rfl, rfl, rfl, rfl, rfl, rfl⟩

/-! ## C4 -/

/-- C4: for every acceleration-accumulating operation of both
variants and every input, a null vector-output pointer is never
written (the corresponding result is none) and the value accumulated
into the other output is identical to the value it would receive were
the null pointer non-null: each side is guarded independently.  For
each operation the first equation says a null i side leaves the j
side exactly as with any non-null i side, the second the converse. -/
theorem c4_null_pointer_independence
    (dens_i dens_j press_i press_j mass_i mass_j : ℚ)
    (bg_press_i bg_press_j mod_bg_press_i mod_bg_press_j : ℚ)
    (mod_dWdrij mod_dWdrji kernelfac visc_i visc_j : ℚ)
    (bulk_visc_i bulk_visc_j abs_rij speccoeff_ij speccoeff_ji : ℚ)
    (vel_i vel_j e_ij : Vec3) (mod_vel_i mod_vel_j : Option Vec3)
    (acc_i acc_j : Option Vec3) :
    (Monaghan.pressure_gradient dens_i dens_j press_i press_j speccoeff_ij
        speccoeff_ji e_ij none acc_j
      = (none, (Monaghan.pressure_gradient dens_i dens_j press_i press_j
          speccoeff_ij speccoeff_ji e_ij acc_i acc_j).2)) ∧
    (Monaghan.pressure_gradient dens_i dens_j press_i press_j speccoeff_ij
        speccoeff_ji e_ij acc_i none
      = ((Monaghan.pressure_gradient dens_i dens_j press_i press_j
          speccoeff_ij speccoeff_ji e_ij acc_i acc_j).1, none)) ∧
    (Monaghan.shear_forces dens_i dens_j vel_i vel_j kernelfac visc_i visc_j
        bulk_visc_i bulk_visc_j abs_rij speccoeff_ij speccoeff_ji e_ij
        none acc_j
      = Except.map (fun p => ((none : Option Vec3), p.2))
          (Monaghan.shear_forces dens_i dens_j vel_i vel_j kernelfac visc_i
            visc_j bulk_visc_i bulk_visc_j abs_rij speccoeff_ij speccoeff_ji
            e_ij acc_i acc_j)) ∧
    (Monaghan.shear_forces dens_i dens_j vel_i vel_j kernelfac visc_i visc_j
        bulk_visc_i bulk_visc_j abs_rij speccoeff_ij speccoeff_ji e_ij
        acc_i none
      = Except.map (fun p => (p.1, (none : Option Vec3)))
          (Monaghan.shear_forces dens_i dens_j vel_i vel_j kernelfac visc_i
            visc_j bulk_visc_i bulk_visc_j abs_rij speccoeff_ij speccoeff_ji
            e_ij acc_i acc_j)) ∧
    (Monaghan.standard_background_pressure dens_i dens_j bg_press_i
        bg_press_j speccoeff_ij speccoeff_ji e_ij none acc_j
      = (none, (Monaghan.standard_background_pressure dens_i dens_j
          bg_press_i bg_press_j speccoeff_ij speccoeff_ji e_ij
          acc_i acc_j).2)) ∧
    (Monaghan.standard_background_pressure dens_i dens_j bg_press_i
        bg_press_j speccoeff_ij speccoeff_ji e_ij acc_i none
      = ((Monaghan.standard_background_pressure dens_i dens_j bg_press_i
          bg_press_j speccoeff_ij speccoeff_ji e_ij acc_i acc_j).1, none)) ∧
    (Monaghan.generalized_background_pressure dens_i dens_j mass_i mass_j
        mod_bg_press_i mod_bg_press_j mod_dWdrij mod_dWdrji e_ij none acc_j
      = (none, (Monaghan.generalized_background_pressure dens_i dens_j
          mass_i mass_j mod_bg_press_i mod_bg_press_j mod_dWdrij mod_dWdrji
          e_ij acc_i acc_j).2)) ∧
    (Monaghan.generalized_background_pressure dens_i dens_j mass_i mass_j
        mod_bg_press_i mod_bg_press_j mod_dWdrij mod_dWdrji e_ij acc_i none
      = ((Monaghan.generalized_background_pressure dens_i dens_j mass_i
          mass_j mod_bg_press_i mod_bg_press_j mod_dWdrij mod_dWdrji e_ij
          acc_i acc_j).1, none)) ∧
    (Monaghan.modified_velocity_contribution dens_i dens_j vel_i vel_j
        mod_vel_i mod_vel_j speccoeff_ij speccoeff_ji e_ij none acc_j
      = (none, (Monaghan.modified_velocity_contribution dens_i dens_j vel_i
          vel_j mod_vel_i mod_vel_j speccoeff_ij speccoeff_ji e_ij
          acc_i acc_j).2)) ∧
    (Monaghan.modified_velocity_contribution dens_i dens_j vel_i vel_j
        mod_vel_i mod_vel_j speccoeff_ij speccoeff_ji e_ij acc_i none
      = ((Monaghan.modified_velocity_contribution dens_i dens_j vel_i vel_j
          mod_vel_i mod_vel_j speccoeff_ij speccoeff_ji e_ij
          acc_i acc_j).1, none)) ∧
    (Adami.pressure_gradient dens_i dens_j press_i press_j speccoeff_ij
        speccoeff_ji e_ij none acc_j
      = (none, (Adami.pressure_gradient dens_i dens_j press_i press_j
          speccoeff_ij speccoeff_ji e_ij acc_i acc_j).2)) ∧
    (Adami.pressure_gradient dens_i dens_j press_i press_j speccoeff_ij
        speccoeff_ji e_ij acc_i none
      = ((Adami.pressure_gradient dens_i dens_j press_i press_j speccoeff_ij
          speccoeff_ji e_ij acc_i acc_j).1, none)) ∧
    (Adami.shear_forces dens_i dens_j vel_i vel_j kernelfac visc_i visc_j
        bulk_visc_i bulk_visc_j abs_rij speccoeff_ij speccoeff_ji e_ij
        none acc_j
      = (none, (Adami.shear_forces dens_i dens_j vel_i vel_j kernelfac
          visc_i visc_j bulk_visc_i bulk_visc_j abs_rij speccoeff_ij
          speccoeff_ji e_ij acc_i acc_j).2)) ∧
    (Adami.shear_forces dens_i dens_j vel_i vel_j kernelfac visc_i visc_j
        bulk_visc_i bulk_visc_j abs_rij speccoeff_ij speccoeff_ji e_ij
        acc_i none
      = ((Adami.shear_forces dens_i dens_j vel_i vel_j kernelfac visc_i
          visc_j bulk_visc_i bulk_visc_j abs_rij speccoeff_ij speccoeff_ji
          e_ij acc_i acc_j).1, none)) ∧
    (Adami.standard_background_pressure dens_i dens_j bg_press_i bg_press_j
        speccoeff_ij speccoeff_ji e_ij none acc_j
      = (none, (Adami.standard_background_pressure dens_i dens_j bg_press_i
          bg_press_j speccoeff_ij speccoeff_ji e_ij acc_i acc_j).2)) ∧
    (Adami.standard_background_pressure dens_i dens_j bg_press_i bg_press_j
        speccoeff_ij speccoeff_ji e_ij acc_i none
      = ((Adami.standard_background_pressure dens_i dens_j bg_press_i
          bg_press_j speccoeff_ij speccoeff_ji e_ij acc_i acc_j).1, none)) ∧
    (Adami.generalized_background_pressure dens_i dens_j mass_i mass_j
        mod_bg_press_i mod_bg_press_j mod_dWdrij mod_dWdrji e_ij none acc_j
      = (none, (Adami.generalized_background_pressure dens_i dens_j mass_i
          mass_j mod_bg_press_i mod_bg_press_j mod_dWdrij mod_dWdrji e_ij
          acc_i acc_j).2)) ∧
    (Adami.generalized_background_pressure dens_i dens_j mass_i mass_j
        mod_bg_press_i mod_bg_press_j mod_dWdrij mod_dWdrji e_ij acc_i none
      = ((Adami.generalized_background_pressure dens_i dens_j mass_i mass_j
          mod_bg_press_i mod_bg_press_j mod_dWdrij mod_dWdrji e_ij
          acc_i acc_j).1, none)) ∧
    (Adami.modified_velocity_contribution dens_i dens_j vel_i vel_j
        mod_vel_i mod_vel_j speccoeff_ij speccoeff_ji e_ij none acc_j
      = (none, (Adami.modified_velocity_contribution dens_i dens_j vel_i
          vel_j mod_vel_i mod_vel_j speccoeff_ij speccoeff_ji e_ij
          acc_i acc_j).2)) ∧
    (Adami.modified_velocity_contribution dens_i dens_j vel_i vel_j
        mod_vel_i mod_vel_j speccoeff_ij speccoeff_ji e_ij acc_i none
      = ((Adami.modified_velocity_contribution dens_i dens_j vel_i vel_j
          mod_vel_i mod_vel_j speccoeff_ij speccoeff_ji e_ij
          acc_i acc_j).1, none)) := by
  refine ⟨rfl, rfl, ?_, ?_, rfl, rfl, rfl, rfl, rfl, rfl, rfl, rfl,
    ?_, ?_, rfl, rfl, rfl, rfl, rfl, rfl⟩
  · simp only [Monaghan.shear_forces]
    repeat' split
    all_goals rfl
  · simp only [Monaghan.shear_forces]
    repeat' split
    all_goals rfl
  · simp only [Adami.shear_forces]
    repeat' split
    all_goals rfl
  · simp only [Adami.shear_forces]
    repeat' split
    all_goals rfl

/-! ## C6 -/

/-- C6: every acceleration-accumulating operation of both variants
only adds into its non-null accumulators: the result starting from
contents a0 (respectively b0) equals a0 plus the delta the operation
produces when started from the zero vector, so the delta is
independent of the initial contents and successive calls superpose.
For the Monaghan shear_forces the same holds on the normal path while
the error outcome is unaffected by the accumulator contents. -/
theorem c6_accumulate_never_overwrite
    (dens_i dens_j press_i press_j mass_i mass_j : ℚ)
    (bg_press_i bg_press_j mod_bg_press_i mod_bg_press_j : ℚ)
    (mod_dWdrij mod_dWdrji kernelfac visc_i visc_j : ℚ)
    (bulk_visc_i bulk_visc_j abs_rij speccoeff_ij speccoeff_ji : ℚ)
    (vel_i vel_j e_ij : Vec3) (mod_vel_i mod_vel_j : Option Vec3)
    (a0 b0 : Vec3) :
    (Monaghan.pressure_gradient dens_i dens_j press_i press_j speccoeff_ij
        speccoeff_ji e_ij (some a0) (some b0)
      = ((Monaghan.pressure_gradient dens_i dens_j press_i press_j
            speccoeff_ij speccoeff_ji e_ij (some vzero)
            (some vzero)).1.map (fun d => a0.add d),
         (Monaghan.pressure_gradient dens_i dens_j press_i press_j
            speccoeff_ij speccoeff_ji e_ij (some vzero)
            (some vzero)).2.map (fun d => b0.add d))) ∧
    (Monaghan.shear_forces dens_i dens_j vel_i vel_j kernelfac visc_i visc_j
        bulk_visc_i bulk_visc_j abs_rij speccoeff_ij speccoeff_ji e_ij
        (some a0) (some b0)
      = Except.map (fun p =>
            (p.1.map (fun d => a0.add d), p.2.map (fun d => b0.add d)))
          (Monaghan.shear_forces dens_i dens_j vel_i vel_j kernelfac visc_i
            visc_j bulk_visc_i bulk_visc_j abs_rij speccoeff_ij speccoeff_ji
            e_ij (some vzero) (some vzero))) ∧
    (Monaghan.standard_background_pressure dens_i dens_j bg_press_i
        bg_press_j speccoeff_ij speccoeff_ji e_ij (some a0) (some b0)
      = ((Monaghan.standard_background_pressure dens_i dens_j bg_press_i
            bg_press_j speccoeff_ij speccoeff_ji e_ij (some vzero)
            (some vzero)).1.map (fun d => a0.add d),
         (Monaghan.standard_background_pressure dens_i dens_j bg_press_i
            bg_press_j speccoeff_ij speccoeff_ji e_ij (some vzero)
            (some vzero)).2.map (fun d => b0.add d))) ∧
    (Monaghan.generalized_background_pressure dens_i dens_j mass_i mass_j
        mod_bg_press_i mod_bg_press_j mod_dWdrij mod_dWdrji e_ij
        (some a0) (some b0)
      = ((Monaghan.generalized_background_pressure dens_i dens_j mass_i
            mass_j mod_bg_press_i mod_bg_press_j mod_dWdrij mod_dWdrji e_ij
            (some vzero) (some vzero)).1.map (fun d => a0.add d),
         (Monaghan.generalized_background_pressure dens_i dens_j mass_i
            mass_j mod_bg_press_i mod_bg_press_j mod_dWdrij mod_dWdrji e_ij
            (some vzero) (some vzero)).2.map (fun d => b0.add d))) ∧
    (Monaghan.modified_velocity_contribution dens_i dens_j vel_i vel_j
        mod_vel_i mod_vel_j speccoeff_ij speccoeff_ji e_ij
        (some a0) (some b0)
      = ((Monaghan.modified_velocity_contribution dens_i dens_j vel_i vel_j
            mod_vel_i mod_vel_j speccoeff_ij speccoeff_ji e_ij (some vzero)
            (some vzero)).1.map (fun d => a0.add d),
         (Monaghan.modified_velocity_contribution dens_i dens_j vel_i vel_j
            mod_vel_i mod_vel_j speccoeff_ij speccoeff_ji e_ij (some vzero)
            (some vzero)).2.map (fun d => b0.add d))) ∧
    (Adami.pressure_gradient dens_i dens_j press_i press_j speccoeff_ij
        speccoeff_ji e_ij (some a0) (some b0)
      = ((Adami.pressure_gradient dens_i dens_j press_i press_j
            speccoeff_ij speccoeff_ji e_ij (some vzero)
            (some vzero)).1.map (fun d => a0.add d),
         (Adami.pressure_gradient dens_i dens_j press_i press_j
            speccoeff_ij speccoeff_ji e_ij (some vzero)
            (some vzero)).2.map (fun d => b0.add d))) ∧
    (Adami.shear_forces dens_i dens_j vel_i vel_j kernelfac visc_i visc_j
        bulk_visc_i bulk_visc_j abs_rij speccoeff_ij speccoeff_ji e_ij
        (some a0) (some b0)
      = ((Adami.shear_forces dens_i dens_j vel_i vel_j kernelfac visc_i
            visc_j bulk_visc_i bulk_visc_j abs_rij speccoeff_ij speccoeff_ji
            e_ij (some vzero) (some vzero)).1.map (fun d => a0.add d),
         (Adami.shear_forces dens_i dens_j vel_i vel_j kernelfac visc_i
            visc_j bulk_visc_i bulk_visc_j abs_rij speccoeff_ij speccoeff_ji
            e_ij (some vzero) (some vzero)).2.map (fun d => b0.add d))) ∧
    (Adami.standard_background_pressure dens_i dens_j bg_press_i bg_press_j
        speccoeff_ij speccoeff_ji e_ij (some a0) (some b0)
      = ((Adami.standard_background_pressure dens_i dens_j bg_press_i
            bg_press_j speccoeff_ij speccoeff_ji e_ij (some vzero)
            (some vzero)).1.map (fun d => a0.add d),
         (Adami.standard_background_pressure dens_i dens_j bg_press_i
            bg_press_j speccoeff_ij speccoeff_ji e_ij (some vzero)
            (some vzero)).2.map (fun d => b0.add d))) ∧
    (Adami.generalized_background_pressure dens_i dens_j mass_i mass_j
        mod_bg_press_i mod_bg_press_j mod_dWdrij mod_dWdrji e_ij
        (some a0) (some b0)
      = ((Adami.generalized_background_pressure dens_i dens_j mass_i mass_j
            mod_bg_press_i mod_bg_press_j mod_dWdrij mod_dWdrji e_ij
            (some vzero) (some vzero)).1.map (fun d => a0.add d),
         (Adami.generalized_background_pressure dens_i dens_j mass_i mass_j
            mod_bg_press_i mod_bg_press_j mod_dWdrij mod_dWdrji e_ij
            (some vzero) (some vzero)).2.map (fun d => b0.add d))) ∧
    (Adami.modified_velocity_contribution dens_i dens_j vel_i vel_j
        mod_vel_i mod_vel_j speccoeff_ij speccoeff_ji e_ij
        (some a0) (some b0)
      = ((Adami.modified_velocity_contribution dens_i dens_j vel_i vel_j
            mod_vel_i mod_vel_j speccoeff_ij speccoeff_ji e_ij (some vzero)
            (some vzero)).1.map (fun d => a0.add d),
         (Adami.modified_velocity_contribution dens_i dens_j vel_i vel_j
            mod_vel_i mod_vel_j speccoeff_ij speccoeff_ji e_ij (some vzero)
            (some vzero)).2.map (fun d => b0.add d))) := by
  refine ⟨?_, ?_, ?_, ?_, ?_, ?_, ?_, ?_, ?_, ?_⟩
  · simp [Monaghan.pressure_gradient, vec_add_scale, Vec3.add, vzero]
  · simp only [Monaghan.shear_forces]
    repeat' split
    all_goals simp [Except.map, vec_add_scale, Vec3.add, vzero, add_assoc]
  · simp [Monaghan.standard_background_pressure, vec_add_scale, Vec3.add,
      vzero]
  · simp [Monaghan.generalized_background_pressure, vec_add_scale, Vec3.add,
      vzero]
  · simp [Monaghan.modified_velocity_contribution, vec_add_scale, Vec3.add,
      vzero]
  · simp [Adami.pressure_gradient, vec_add_scale, Vec3.add, vzero]
  · simp only [Adami.shear_forces]
    repeat' split
    all_goals simp [vec_add_scale, Vec3.add, vzero]
  · simp [Adami.standard_background_pressure, vec_add_scale, Vec3.add, vzero]
  · simp [Adami.generalized_background_pressure, vec_add_scale, Vec3.add,
      vzero]
  · simp [Adami.modified_velocity_contribution, vec_add_scale, Vec3.add,
      vzero]
